import Mathlib

/-
  Shallow embedding of lib/ovs-lldp.c (Auto Attach / LLDP state management).

  Hash maps (struct hmap) are modelled as lists: hmap_insert puts the node at
  the head of its bucket, so insertion is modelled as cons and the bucket scans
  HMAP_FOR_EACH_IN_BUCKET become List.find? / List.eraseP over the whole list
  (entries of other buckets are skipped by the exact-equality test in the C
  loop bodies, so searching the whole list finds the same node).  Iteration
  order of HMAP_FOR_EACH is unspecified in C; list order stands in for it.
  ovs_list queues are modelled as lists with list_push_back as append.
  C integer narrowing casts are made explicit: toU32 for (uint32_t) casts of
  int64_t values, and the implicit enum-to-uint8_t conversion at the
  aa_status_to_str call site appears as a mod 256.
-/

namespace OvsLldp

/-- MINIMUM_ETH_PACKET_SIZE, src line 58. -/
def MINIMUM_ETH_PACKET_SIZE : Nat := 68

/-- ETH_HEADER_LEN from packets.h: 6 dst + 6 src + 2 ethertype bytes. -/
def ETH_HEADER_LEN : Nat := 14

/-- The LLDP multicast destination address, src lines 762-763. -/
def ETH_ADDR_LLDP : List Nat := [0x01, 0x80, 0xC2, 0x00, 0x00, 0x0e]

/-- enum aa_status value AA_STATUS_ACTIVE (src lines 60-74). -/
def AA_STATUS_ACTIVE : Nat := 2

/-- enum aa_status value AA_STATUS_REJECT_GENERIC. -/
def AA_STATUS_REJECT_GENERIC : Nat := 3

/-- enum aa_status value AA_STATUS_REJECT_AA_RES_NOTAVAIL. -/
def AA_STATUS_REJECT_AA_RES_NOTAVAIL : Nat := 4

/-- enum aa_status value AA_STATUS_REJECT_INVALID. -/
def AA_STATUS_REJECT_INVALID : Nat := 6

/-- enum aa_status value AA_STATUS_REJECT_VLAN_RES_UNAVAIL. -/
def AA_STATUS_REJECT_VLAN_RES_UNAVAIL : Nat := 8

/-- enum aa_status value AA_STATUS_REJECT_VLAN_APP_ISSUE. -/
def AA_STATUS_REJECT_VLAN_APP_ISSUE : Nat := 9

/-- enum aa_status value AA_STATUS_PENDING. -/
def AA_STATUS_PENDING : Nat := 255

/-- The numeric values carried by enum aa_status (src lines 60-74). -/
def aaStatusValues : List Nat :=
  [AA_STATUS_ACTIVE, AA_STATUS_REJECT_GENERIC, AA_STATUS_REJECT_AA_RES_NOTAVAIL,
   AA_STATUS_REJECT_INVALID, AA_STATUS_REJECT_VLAN_RES_UNAVAIL,
   AA_STATUS_REJECT_VLAN_APP_ISSUE, AA_STATUS_PENDING]

/-- Two-complement truncation of an int64_t value to uint32_t, as performed by
    C casts such as (uint32_t) m->isid (src line 590) and the implicit
    conversions storing int64_t fields into uint32_t struct fields. -/
def toU32 (i : Int) : Nat := (i.emod (2 ^ 32)).toNat

/-- struct aa_mapping_internal (src lines 78-85).  aux is an externally owned
    identity token, only ever compared for equality; it is modelled as a
    natural number standing for the pointer value. -/
structure AaMappingInternal where
  isid : Int
  vlan : Int
  aux : Nat
  status : Nat
deriving DecidableEq

/-- struct lldpd_aa_isid_vlan_maps_tlv, the engine-exported mapping record.
    The struct itself lives in lldp/lldpd-structs.h (outside src/); the fields
    below are the ones src/lib/ovs-lldp.c reads and writes: isid is uint32_t
    (printed with PRIu32, compared against (uint32_t) casts), status is the
    peer-reported status (printed with PRIu16).  Modelled from the spec: the
    peer-reported status is a numeric value, possibly unrecognized. -/
structure LldpdAaIsidVlanMapsTlv where
  isid : Nat
  vlan : Int
  status : Nat
deriving DecidableEq

/-- enum bridge_aa_vlan_oper from ovs-lldp.h (BRIDGE_AA_VLAN_OPER_ADD /
    BRIDGE_AA_VLAN_OPER_REMOVE). -/
inductive BridgeAaVlanOper where
  | add
  | remove
deriving DecidableEq

/-- struct bridge_aa_vlan, the VLAN operation queued for the bridge. -/
structure BridgeAaVlan where
  port_name : String
  vlan : Nat
  oper : BridgeAaVlanOper
deriving DecidableEq

/-- An engine port record (struct lldpd_port); only the Auto Attach mapping
    TLV list read by this module is modelled. -/
structure LldpdPort where
  p_isid_vlan_maps : List LldpdAaIsidVlanMapsTlv
deriving DecidableEq

/-- struct lldpd_hardware: one per-port engine state object.  h_lport is the
    local port, h_rports the remote (peer) port records. -/
structure LldpdHardware where
  h_ifname : String
  h_mtu : Nat
  h_lport : LldpdPort
  h_rports : List LldpdPort
deriving DecidableEq

/-- struct lldpd_chassis: the identity fields this module mutates.  The C
    strings are nullable (xzalloc leaves them NULL), hence Option. -/
structure LldpdChassis where
  c_name : Option String
  c_descr : Option String
deriving DecidableEq

/-- struct lldp: one protocol instance.  hardware models
    lldpd->g_hardware.h_entries, g_chassis models lldpd->g_chassis.list. -/
structure Lldp where
  name : String
  mappings_by_isid : List AaMappingInternal
  mappings_by_aux : List AaMappingInternal
  active_mapping_queue : List BridgeAaVlan
  hardware : List LldpdHardware
  g_chassis : List LldpdChassis
deriving DecidableEq

/-- The process-wide state: all_lldps and all_mappings are the two
    mutex-guarded static hash maps (src lines 91-100).  dummies collects the
    instances returned by lldp_create_dummy, which the source never inserts
    into all_lldps; they are held only by their callers. -/
structure AAState where
  all_lldps : List Lldp
  all_mappings : List AaMappingInternal
  dummies : List Lldp
deriving DecidableEq

/-- The initial process state: both static hash maps start empty
    (HMAP_INITIALIZER, src lines 91 and 99). -/
def initialAAState : AAState :=
  { all_lldps := [], all_mappings := [], dummies := [] }

/-- mapping_find_by_isid (src lines 121-137): first entry of the by-isid index
    whose isid equals the argument.  The C parameter is uint64_t and both
    sides of the comparison are converted from int64_t, which preserves
    equality, so plain Int equality is used. -/
def mapping_find_by_isid (lldp : Lldp) (isid : Int) :
    Option AaMappingInternal :=
  lldp.mappings_by_isid.find? (fun m => m.isid == isid)

/-- mapping_find_by_aux (src lines 142-155): first entry of the by-aux index
    whose aux token equals the argument. -/
def mapping_find_by_aux (lldp : Lldp) (aux : Nat) :
    Option AaMappingInternal :=
  lldp.mappings_by_aux.find? (fun m => m.aux == aux)

/-- aa_status_to_str (src lines 159-168).  The C parameter is uint8_t; the
    argument has already been narrowed to 8 bits at the call site. -/
def aa_status_to_str (status : Nat) : String :=
  if status == AA_STATUS_ACTIVE then "Active"
  else if status == AA_STATUS_REJECT_GENERIC then "Reject (Generic)"
  else if status == AA_STATUS_REJECT_AA_RES_NOTAVAIL then
    "Reject (AA resources unavailable)"
  else if status == AA_STATUS_REJECT_INVALID then "Reject (Invalid)"
  else if status == AA_STATUS_REJECT_VLAN_RES_UNAVAIL then
    "Reject (VLAN resources unavailable)"
  else if status == AA_STATUS_REJECT_VLAN_APP_ISSUE then
    "Reject (Application interaction issue)"
  else if status == AA_STATUS_PENDING then "Pending"
  else "Undefined"

/-- update_mapping_on_lldp (src lines 395-422): append the engine-exported TLV
    record to the local port of the hardware and enqueue an Add operation.
    The TLV is xzalloc-ed, so its status field starts at 0; its isid and vlan
    come from the int64_t mapping fields (isid narrowed to the uint32_t TLV
    field). -/
def update_mapping_on_lldp (lldp : Lldp) (hardware : LldpdHardware)
    (m : AaMappingInternal) : Lldp × LldpdHardware :=
  let lm : LldpdAaIsidVlanMapsTlv :=
    { isid := toU32 m.isid, vlan := m.vlan, status := 0 }
  let hardware := { hardware with
    h_lport := { p_isid_vlan_maps :=
      hardware.h_lport.p_isid_vlan_maps ++ [lm] } }
  let node : BridgeAaVlan :=
    { port_name := hardware.h_ifname, vlan := toU32 m.vlan,
      oper := BridgeAaVlanOper.add }
  ({ lldp with active_mapping_queue := lldp.active_mapping_queue ++ [node] },
   hardware)

/-- The body of the hardware loop of aa_mapping_register (src lines 569-571),
    threading the instance and rebuilding the hardware list. -/
def aa_mapping_register_hw_step (m : AaMappingInternal)
    (acc : Lldp × List LldpdHardware) (hw : LldpdHardware) :
    Lldp × List LldpdHardware :=
  let r := update_mapping_on_lldp acc.1 hw m
  (r.1, acc.2 ++ [r.2])

/-- The body of the HMAP_FOR_EACH instance loop of aa_mapping_register
    (src lines 544-572): skip the instance when it already has an entity for
    the I-SID, otherwise insert a fresh Pending entity into both indices and
    fan out over every hardware record. -/
def aa_mapping_register_lldp (aux : Nat) (isid vlan : Int) (lldp : Lldp) :
    Lldp :=
  if (mapping_find_by_isid lldp isid).isSome then lldp
  else
    let m : AaMappingInternal :=
      { isid := isid, vlan := vlan, aux := aux, status := AA_STATUS_PENDING }
    let lldp2 := { lldp with
      mappings_by_isid := m :: lldp.mappings_by_isid,
      mappings_by_aux := m :: lldp.mappings_by_aux }
    let r := lldp2.hardware.foldl (aa_mapping_register_hw_step m)
      (lldp2, ([] : List LldpdHardware))
    { r.1 with hardware := r.2 }

/-- aa_mapping_register (src lines 517-577): insert the bridge-level entity
    into the global table, update every live instance, return 0. -/
def aa_mapping_register (s : AAState) (aux : Nat) (isid vlan : Int) :
    AAState × Int :=
  let bridge_m : AaMappingInternal :=
    { isid := isid, vlan := vlan, aux := aux, status := AA_STATUS_PENDING }
  ({ s with
     all_mappings := bridge_m :: s.all_mappings,
     all_lldps := s.all_lldps.map (aa_mapping_register_lldp aux isid vlan) },
   0)

/-- aa_mapping_unregister_mapping (src lines 579-613): remove the first local
    TLV whose uint32_t isid matches the truncated entity isid, enqueue a
    Remove operation, stop after the first match. -/
def aa_mapping_unregister_mapping (lldp : Lldp) (hw : LldpdHardware)
    (m : AaMappingInternal) : Lldp × LldpdHardware :=
  match hw.h_lport.p_isid_vlan_maps.find?
      (fun lm => lm.isid == toU32 m.isid) with
  | none => (lldp, hw)
  | some _ =>
    let maps2 := hw.h_lport.p_isid_vlan_maps.eraseP
      (fun lm => lm.isid == toU32 m.isid)
    let hw2 := { hw with h_lport := { p_isid_vlan_maps := maps2 } }
    let node : BridgeAaVlan :=
      { port_name := hw.h_ifname, vlan := toU32 m.vlan,
        oper := BridgeAaVlanOper.remove }
    ({ lldp with
       active_mapping_queue := lldp.active_mapping_queue ++ [node] }, hw2)

/-- The body of the hardware loop of aa_mapping_unregister
    (src lines 649-655). -/
def aa_mapping_unregister_hw_step (m : AaMappingInternal)
    (acc : Lldp × List LldpdHardware) (hw : LldpdHardware) :
    Lldp × List LldpdHardware :=
  let r := aa_mapping_unregister_mapping acc.1 hw m
  (r.1, acc.2 ++ [r.2])

/-- The body of the HMAP_FOR_EACH instance loop of aa_mapping_unregister
    (src lines 626-667).  When the aux token is found: remove the node found
    by isid from the by-isid index (when present), remove the found node from
    the by-aux index, fan the TLV removal out over the hardware records, and
    remove the first global entry matching both isid and vlan (only for
    non-negative values, the -1 sentinels).  The global table is threaded
    because its removal happens inside this per-instance loop body. -/
def aa_mapping_unregister_lldp_found (aux : Nat) (m : AaMappingInternal)
    (lldp : Lldp) (all_mappings : List AaMappingInternal) :
    Lldp × List AaMappingInternal :=
  let isid_tmp := m.isid
  let vlan_tmp := m.vlan
  let by_isid :=
    match mapping_find_by_isid lldp m.isid with
    | some q => lldp.mappings_by_isid.eraseP (fun x => x.isid == q.isid)
    | none => lldp.mappings_by_isid
  let by_aux := lldp.mappings_by_aux.eraseP (fun x => x.aux == aux)
  let lldp2 := { lldp with
    mappings_by_isid := by_isid, mappings_by_aux := by_aux }
  let r := lldp2.hardware.foldl (aa_mapping_unregister_hw_step m)
    (lldp2, ([] : List LldpdHardware))
  let lldp3 := { r.1 with hardware := r.2 }
  let all_mappings2 :=
    if 0 ≤ isid_tmp ∧ 0 ≤ vlan_tmp then
      all_mappings.eraseP
        (fun x => x.isid == isid_tmp && x.vlan == vlan_tmp)
    else all_mappings
  (lldp3, all_mappings2)

/-- Dispatch on the mapping_find_by_aux lookup opening the loop body. -/
def aa_mapping_unregister_lldp (aux : Nat) (lldp : Lldp)
    (all_mappings : List AaMappingInternal) :
    Lldp × List AaMappingInternal :=
  match mapping_find_by_aux lldp aux with
  | none => (lldp, all_mappings)
  | some m => aa_mapping_unregister_lldp_found aux m lldp all_mappings

/-- The HMAP_FOR_EACH instance loop of aa_mapping_unregister, threading the
    global mapping table through the per-instance bodies. -/
def aa_mapping_unregister_loop (aux : Nat) :
    List Lldp → List AaMappingInternal →
    List Lldp × List AaMappingInternal
  | [], am => ([], am)
  | l :: rest, am =>
    let r1 := aa_mapping_unregister_lldp aux l am
    let r2 := aa_mapping_unregister_loop aux rest r1.2
    (r1.1 :: r2.1, r2.2)

/-- aa_mapping_unregister (src lines 617-672): returns 0 unconditionally. -/
def aa_mapping_unregister (s : AAState) (aux : Nat) : AAState × Int :=
  let r := aa_mapping_unregister_loop aux s.all_lldps s.all_mappings
  ({ s with all_lldps := r.1, all_mappings := r.2 }, 0)

/-- The inner LIST_FOR_EACH_SAFE of aa_get_vlan_queued (src lines 437-454):
    copy each queued node onto the output list (list_push_back) and remove it
    from the instance queue. -/
def aa_get_vlan_queued_port :
    List BridgeAaVlan → List BridgeAaVlan → List BridgeAaVlan
  | [], out => out
  | n :: rest, out => aa_get_vlan_queued_port rest (out ++ [n])

/-- The HMAP_FOR_EACH instance loop of aa_get_vlan_queued: drain every
    instance queue into the output list. -/
def aa_get_vlan_queued_loop :
    List Lldp → List BridgeAaVlan → List Lldp × List BridgeAaVlan
  | [], out => ([], out)
  | l :: rest, out =>
    let out2 := aa_get_vlan_queued_port l.active_mapping_queue out
    let r := aa_get_vlan_queued_loop rest out2
    ({ l with active_mapping_queue := [] } :: r.1, r.2)

/-- aa_get_vlan_queued (src lines 427-460): drain all instance queues into
    the caller-provided list, return 0. -/
def aa_get_vlan_queued (s : AAState) (out : List BridgeAaVlan) :
    AAState × List BridgeAaVlan × Int :=
  let r := aa_get_vlan_queued_loop s.all_lldps out
  ({ s with all_lldps := r.1 }, r.2, 0)

/-- aa_get_vlan_queue_size (src lines 464-479): sum of the queue lengths of
    all live instances. -/
def aa_get_vlan_queue_size (s : AAState) : Nat :=
  s.all_lldps.foldl (fun size l => size + l.active_mapping_queue.length) 0

/-- The build-identification string PACKAGE_STRING from config.h (external to
    this module). -/
def PACKAGE_STRING : String := "openvswitch package"

/-- struct aa_settings from ovs-lldp.h: the chassis identity strings. -/
structure AaSettings where
  system_name : String
  system_description : String
deriving DecidableEq

/-- aa_configure (src lines 483-513): overwrite the chassis name and
    description of every chassis of every live instance; an empty description
    falls back to PACKAGE_STRING.  Returns 0. -/
def aa_configure (s : AAState) (stg : AaSettings) : AAState × Int :=
  ({ s with all_lldps := s.all_lldps.map (fun l =>
      { l with g_chassis := l.g_chassis.map (fun c =>
          { c with
            c_descr := some (if stg.system_description ≠ "" then
              stg.system_description else PACKAGE_STRING),
            c_name := some stg.system_name }) }) },
   0)

/-- Modelled from the spec: struct smap and smap_get_bool live outside src/.
    The spec recognizes exactly one option, enable: bool, defaulting to false
    when absent. -/
structure Smap where
  enable : Option Bool
deriving DecidableEq

/-- Modelled from the spec: reading the boolean enable option with a default
    for absence. -/
def smap_get_bool (cfg : Smap) (dflt : Bool) : Bool :=
  cfg.enable.getD dflt

/-- The seeding HMAP_FOR_EACH of lldp_create (src lines 873-891): copy every
    global mapping whose I-SID the new instance does not yet have into both
    indices (xmemdup copies all fields, status included) and fan out onto the
    single allocated hardware record, which is threaded because
    update_mapping_on_lldp mutates it in place. -/
def lldp_create_seed_loop :
    List AaMappingInternal → Lldp → LldpdHardware → Lldp × LldpdHardware
  | [], lldp, hw => (lldp, hw)
  | m :: rest, lldp, hw =>
    if (mapping_find_by_isid lldp m.isid).isSome then
      lldp_create_seed_loop rest lldp hw
    else
      let p := m
      let lldp2 := { lldp with
        mappings_by_isid := p :: lldp.mappings_by_isid,
        mappings_by_aux := p :: lldp.mappings_by_aux }
      let r := update_mapping_on_lldp lldp2 hw p
      lldp_create_seed_loop rest r.1 r.2

/-- lldp_create (src lines 797-899).  Returns none (registry untouched) when
    the configuration is absent or does not enable the protocol; otherwise
    allocates the instance with empty indices and queue, one chassis and one
    hardware record named after the device, seeds it from the global mapping
    table, and inserts it into the registry. -/
def lldp_create (s : AAState) (netdev_name : String) (mtu : Nat)
    (cfg : Option Smap) : AAState × Option Lldp :=
  match cfg with
  | none => (s, none)
  | some c =>
    if !(smap_get_bool c false) then (s, none)
    else
      let lchassis : LldpdChassis := { c_name := none, c_descr := none }
      let hw : LldpdHardware :=
        { h_ifname := netdev_name, h_mtu := mtu,
          h_lport := { p_isid_vlan_maps := [] }, h_rports := [] }
      let lldp : Lldp :=
        { name := netdev_name, mappings_by_isid := [], mappings_by_aux := [],
          active_mapping_queue := [], hardware := [hw],
          g_chassis := [lchassis] }
      let r := lldp_create_seed_loop s.all_mappings lldp hw
      let lldp2 := { r.1 with hardware := [r.2] }
      ({ s with all_lldps := lldp2 :: s.all_lldps }, some lldp2)

/-- lldp_create_dummy (src lines 902-959): a fixed placeholder instance with
    empty indices and queue.  The source contains neither the global-table
    seeding loop nor any hmap_insert into all_lldps for it. -/
def lldp_create_dummy : Lldp :=
  let lchassis : LldpdChassis := { c_name := none, c_descr := none }
  let hw : LldpdHardware :=
    { h_ifname := "dummy-hw", h_mtu := 1500,
      h_lport := { p_isid_vlan_maps := [] }, h_rports := [] }
  { name := "dummy-lldp", mappings_by_isid := [], mappings_by_aux := [],
    active_mapping_queue := [], hardware := [hw], g_chassis := [lchassis] }

/-- The LIST_FOR_EACH body of aa_print_isid_status_port_isid (src 268-285):
    for each peer-reported TLV, look the local entity up by I-SID and, when
    present, overwrite its status with the peer-reported value; when absent,
    only log.  The found struct is shared by both hash indices (both hold
    pointers to the same aa_mapping_internal), and I-SIDs are unique within
    an instance (every insertion is guarded by mapping_find_by_isid), so the
    in-place mutation is modelled as updating the entities with that I-SID in
    both index lists. -/
def aa_print_isid_status_maps :
    Lldp → List LldpdAaIsidVlanMapsTlv → Lldp
  | lldp, [] => lldp
  | lldp, tlv :: rest =>
    let isid := tlv.isid
    let lldp2 :=
      match mapping_find_by_isid lldp (isid : Int) with
      | some _ =>
        { lldp with
          mappings_by_isid := lldp.mappings_by_isid.map (fun x =>
            if x.isid == (isid : Int) then { x with status := tlv.status }
            else x),
          mappings_by_aux := lldp.mappings_by_aux.map (fun x =>
            if x.isid == (isid : Int) then { x with status := tlv.status }
            else x) }
      | none => lldp
    aa_print_isid_status_maps lldp2 rest

/-- aa_print_isid_status_port_isid (src lines 258-286). -/
def aa_print_isid_status_port_isid (lldp : Lldp) (port : LldpdPort) : Lldp :=
  if port.p_isid_vlan_maps.isEmpty then lldp
  else aa_print_isid_status_maps lldp port.p_isid_vlan_maps

/-- aa_print_isid_status_port (src lines 288-297): refresh from every remote
    port record of one hardware record. -/
def aa_print_isid_status_port (lldp : Lldp) (hw : LldpdHardware) : Lldp :=
  hw.h_rports.foldl aa_print_isid_status_port_isid lldp

/-- One table row of the show-isid report (src lines 325-331): I-SID, VLAN,
    the literal Switch, and the status name.  The status stored in the entity
    is narrowed to the uint8_t parameter of aa_status_to_str at the call. -/
def aa_show_isid_rows (lldp : Lldp) : List (Int × Int × String × String) :=
  lldp.mappings_by_isid.map (fun m =>
    (m.isid, m.vlan, "Switch", aa_status_to_str (m.status % 256)))

/-- aa_print_isid_status (src lines 302-332): refresh the local statuses from
    every remote port of every hardware record, then render the table. -/
def aa_print_isid_status (lldp : Lldp) :
    Lldp × List (Int × Int × String × String) :=
  let lldp2 := lldp.hardware.foldl aa_print_isid_status_port lldp
  (lldp2, aa_show_isid_rows lldp2)

/-- The HMAP_FOR_EACH of aa_unixctl_show_isid (src lines 353-370), pairing
    each instance name with its rendered rows. -/
def aa_unixctl_show_isid_loop :
    List Lldp → List Lldp × List (String × List (Int × Int × String × String))
  | [] => ([], [])
  | l :: rest =>
    let r := aa_print_isid_status l
    let rr := aa_unixctl_show_isid_loop rest
    (r.1 :: rr.1, (l.name, r.2) :: rr.2)

/-- aa_unixctl_show_isid: the show-isid report, iterating only the instance
    registry (all_lldps). -/
def aa_unixctl_show_isid (s : AAState) :
    AAState × List (String × List (Int × Int × String × String)) :=
  let r := aa_unixctl_show_isid_loop s.all_lldps
  ({ s with all_lldps := r.1 }, r.2)

/-- The result of lldp_put_packet: the bytes written into the dp_packet, the
    final value of the local variable lldp_size, and the duration given to
    timer_set_duration. -/
structure LldpPutPacketResult where
  packet : List Nat
  lldp_size : Nat
  tx_timer : Int
deriving DecidableEq

/-- lldp_put_packet (src lines 754-776).  eth_compose writes the Ethernet
    header (LLDP multicast destination, given source, Ethertype 0x88cc
    big-endian) with a zero-length payload; lldpd_send, the external engine,
    appends its encoded payload and returns the payload size.  The minimum
    frame size is then computed into the local lldp_size, which is not read
    again before the function returns: the packet itself is never resized.
    Finally the transmit timer is re-armed with g_config.c_tx_interval. -/
def lldp_put_packet (eth_src : List Nat) (engine_payload : List Nat)
    (c_tx_interval : Int) : LldpPutPacketResult :=
  let packet := ETH_ADDR_LLDP ++ eth_src ++ [0x88, 0xcc]
  let packet2 := packet ++ engine_payload
  let lldp_size := engine_payload.length
  let lldp_size2 :=
    if lldp_size + ETH_HEADER_LEN < MINIMUM_ETH_PACKET_SIZE then
      MINIMUM_ETH_PACKET_SIZE
    else lldp_size
  { packet := packet2, lldp_size := lldp_size2, tx_timer := c_tx_interval }

/-- The public mutating operations of the module, for reasoning about
    arbitrary call sequences. -/
inductive AAOp where
  | create (dev : String) (mtu : Nat) (cfg : Option Smap)
  | createDummy
  | register (aux : Nat) (isid vlan : Int)
  | unregister (aux : Nat)
  | drain
  | configure (stg : AaSettings)
deriving DecidableEq

/-- One public call applied to the process state.  lldp_create_dummy returns
    an instance the caller keeps; it is recorded in dummies. -/
def stepAA (s : AAState) (op : AAOp) : AAState :=
  match op with
  | AAOp.create dev mtu cfg => (lldp_create s dev mtu cfg).1
  | AAOp.createDummy => { s with dummies := s.dummies ++ [lldp_create_dummy] }
  | AAOp.register aux isid vlan => (aa_mapping_register s aux isid vlan).1
  | AAOp.unregister aux => (aa_mapping_unregister s aux).1
  | AAOp.drain => (aa_get_vlan_queued s []).1
  | AAOp.configure stg => (aa_configure s stg).1

/-- A sequence of public calls applied from a starting state. -/
def runOps (s : AAState) (ops : List AAOp) : AAState :=
  ops.foldl stepAA s

/-- The dual-index well-formedness of one instance: both hash indices hold the
    same multiset of entities, and I-SIDs are unique within the instance. -/
def WFInst (l : Lldp) : Prop :=
  l.mappings_by_isid.Perm l.mappings_by_aux ∧
  (l.mappings_by_isid.map (fun m => m.isid)).Nodup

/-- The process-state invariant: every registered instance and every dummy
    instance is well formed. -/
def InvState (s : AAState) : Prop :=
  (∀ l ∈ s.all_lldps, WFInst l) ∧ (∀ l ∈ s.dummies, WFInst l)

-- Characterizations of the two hash lookups.

theorem mapping_find_by_isid_none (l : Lldp) (isid : Int) :
    mapping_find_by_isid l isid = none ↔
      ∀ m ∈ l.mappings_by_isid, m.isid ≠ isid := by
  unfold mapping_find_by_isid
  rw [List.find?_eq_none]
  simp

theorem mapping_find_by_isid_some (l : Lldp) (isid : Int)
    (m : AaMappingInternal) (h : mapping_find_by_isid l isid = some m) :
    m ∈ l.mappings_by_isid ∧ m.isid = isid := by
  unfold mapping_find_by_isid at h
  exact ⟨List.mem_of_find?_eq_some h, by simpa using List.find?_some h⟩

theorem mapping_find_by_aux_some (l : Lldp) (aux : Nat)
    (m : AaMappingInternal) (h : mapping_find_by_aux l aux = some m) :
    m ∈ l.mappings_by_aux ∧ m.aux = aux := by
  unfold mapping_find_by_aux at h
  exact ⟨List.mem_of_find?_eq_some h, by simpa using List.find?_some h⟩

-- A successful find? splits the list, up to permutation, into the found
-- element and the eraseP remainder.

theorem find_eraseP_perm {α : Type _} (p : α → Bool) :
    ∀ (l : List α) (a : α), l.find? p = some a →
      l.Perm (a :: l.eraseP p) := by
  intro l
  induction l with
  | nil => intro a h; simp [List.find?] at h
  | cons x xs ih =>
    intro a h
    by_cases hp : p x
    · rw [List.find?_cons_of_pos _ hp] at h
      cases h
      rw [List.eraseP_cons_of_pos hp]
    · rw [List.find?_cons_of_neg _ hp] at h
      rw [List.eraseP_cons_of_neg hp]
      exact ((ih a h).cons x).trans (List.Perm.swap a x _)

-- The mapping fields of an instance are untouched by the per-hardware
-- fan-out steps (they only touch the queue and the hardware records).

theorem update_mapping_on_lldp_fst_mappings (l : Lldp) (hw : LldpdHardware)
    (m : AaMappingInternal) :
    (update_mapping_on_lldp l hw m).1.mappings_by_isid = l.mappings_by_isid ∧
    (update_mapping_on_lldp l hw m).1.mappings_by_aux = l.mappings_by_aux :=
  ⟨rfl, rfl⟩

theorem register_hw_fold_fst_mappings (m : AaMappingInternal) :
    ∀ (hws : List LldpdHardware) (l : Lldp) (acc : List LldpdHardware),
      ((hws.foldl (aa_mapping_register_hw_step m) (l, acc)).1).mappings_by_isid
          = l.mappings_by_isid ∧
      ((hws.foldl (aa_mapping_register_hw_step m) (l, acc)).1).mappings_by_aux
          = l.mappings_by_aux := by
  intro hws
  induction hws with
  | nil => intro l acc; exact ⟨rfl, rfl⟩
  | cons hw rest ih =>
    intro l acc
    simpa [aa_mapping_register_hw_step, update_mapping_on_lldp] using
      ih ((update_mapping_on_lldp l hw m).1) (acc ++ [(update_mapping_on_lldp l hw m).2])

theorem unregister_mapping_fst_mappings (l : Lldp) (hw : LldpdHardware)
    (m : AaMappingInternal) :
    (aa_mapping_unregister_mapping l hw m).1.mappings_by_isid
        = l.mappings_by_isid ∧
    (aa_mapping_unregister_mapping l hw m).1.mappings_by_aux
        = l.mappings_by_aux := by
  unfold aa_mapping_unregister_mapping
  constructor <;> (split <;> rfl)

theorem unregister_hw_fold_fst_mappings (m : AaMappingInternal) :
    ∀ (hws : List LldpdHardware) (l : Lldp) (acc : List LldpdHardware),
      ((hws.foldl (aa_mapping_unregister_hw_step m) (l, acc)).1).mappings_by_isid
          = l.mappings_by_isid ∧
      ((hws.foldl (aa_mapping_unregister_hw_step m) (l, acc)).1).mappings_by_aux
          = l.mappings_by_aux := by
  intro hws
  induction hws with
  | nil => intro l acc; exact ⟨rfl, rfl⟩
  | cons hw rest ih =>
    intro l acc
    have h2 := ih ((aa_mapping_unregister_mapping l hw m).1)
      (acc ++ [(aa_mapping_unregister_mapping l hw m).2])
    have h3 := unregister_mapping_fst_mappings l hw m
    simp only [List.foldl_cons, aa_mapping_unregister_hw_step]
    exact ⟨h2.1.trans h3.1, h2.2.trans h3.2⟩

-- Shape of one instance after a successful registration of a fresh I-SID.

theorem aa_mapping_register_lldp_skip (aux : Nat) (isid vlan : Int)
    (l : Lldp) (q : AaMappingInternal)
    (hf : mapping_find_by_isid l isid = some q) :
    aa_mapping_register_lldp aux isid vlan l = l := by
  unfold aa_mapping_register_lldp
  rw [hf]
  rfl

theorem aa_mapping_register_lldp_new (aux : Nat) (isid vlan : Int) (l : Lldp)
    (hn : mapping_find_by_isid l isid = none) :
    (aa_mapping_register_lldp aux isid vlan l).mappings_by_isid =
      { isid := isid, vlan := vlan, aux := aux, status := AA_STATUS_PENDING }
        :: l.mappings_by_isid ∧
    (aa_mapping_register_lldp aux isid vlan l).mappings_by_aux =
      { isid := isid, vlan := vlan, aux := aux, status := AA_STATUS_PENDING }
        :: l.mappings_by_aux := by
  unfold aa_mapping_register_lldp
  rw [hn]
  exact ⟨(register_hw_fold_fst_mappings _ _ _ _).1,
         (register_hw_fold_fst_mappings _ _ _ _).2⟩

theorem wf_aa_mapping_register_lldp (aux : Nat) (isid vlan : Int) (l : Lldp)
    (h : WFInst l) : WFInst (aa_mapping_register_lldp aux isid vlan l) := by
  cases hf : mapping_find_by_isid l isid with
  | some q => rw [aa_mapping_register_lldp_skip aux isid vlan l q hf]; exact h
  | none =>
    obtain ⟨h1, h2⟩ := aa_mapping_register_lldp_new aux isid vlan l hf
    refine ⟨?_, ?_⟩
    · rw [h1, h2]; exact h.1.cons _
    · rw [h1, List.map_cons]
      refine List.nodup_cons.mpr ⟨?_, h.2⟩
      intro hmem
      obtain ⟨x, hx, hxe⟩ := List.mem_map.mp hmem
      exact (mapping_find_by_isid_none l isid).mp hf x hx hxe

-- Shape of one instance after an unregistration that found the aux token.

theorem aa_mapping_unregister_lldp_found_fst (aux : Nat)
    (m : AaMappingInternal) (l : Lldp) (am : List AaMappingInternal) :
    (aa_mapping_unregister_lldp_found aux m l am).1.mappings_by_isid =
      (match mapping_find_by_isid l m.isid with
       | some q => l.mappings_by_isid.eraseP (fun x => x.isid == q.isid)
       | none => l.mappings_by_isid) ∧
    (aa_mapping_unregister_lldp_found aux m l am).1.mappings_by_aux =
      l.mappings_by_aux.eraseP (fun x => x.aux == aux) := by
  unfold aa_mapping_unregister_lldp_found
  exact ⟨(unregister_hw_fold_fst_mappings _ _ _ _).1,
         (unregister_hw_fold_fst_mappings _ _ _ _).2⟩

theorem wf_aa_mapping_unregister_lldp (aux : Nat) (l : Lldp)
    (am : List AaMappingInternal) (h : WFInst l) :
    WFInst (aa_mapping_unregister_lldp aux l am).1 := by
  cases hfa : mapping_find_by_aux l aux with
  | none => simp only [aa_mapping_unregister_lldp, hfa]; exact h
  | some m =>
    simp only [aa_mapping_unregister_lldp, hfa]
    obtain ⟨hmemaux, hmaux⟩ := mapping_find_by_aux_some l aux m hfa
    have hmemisid : m ∈ l.mappings_by_isid := h.1.mem_iff.mpr hmemaux
    obtain ⟨e1, e2⟩ := aa_mapping_unregister_lldp_found_fst aux m l am
    cases hfi : mapping_find_by_isid l m.isid with
    | none =>
      exact absurd rfl ((mapping_find_by_isid_none l m.isid).mp hfi m hmemisid)
    | some q =>
      obtain ⟨hqmem, hqisid⟩ := mapping_find_by_isid_some l m.isid q hfi
      have hqm : q = m :=
        List.inj_on_of_nodup_map h.2 hqmem hmemisid (by rw [hqisid])
      subst hqm
      rw [hfi] at e1
      have p1 : l.mappings_by_isid.Perm
          (q :: l.mappings_by_isid.eraseP (fun x => x.isid == q.isid)) :=
        find_eraseP_perm _ _ _ hfi
      have p2 : l.mappings_by_aux.Perm
          (q :: l.mappings_by_aux.eraseP (fun x => x.aux == aux)) :=
        find_eraseP_perm _ _ _ hfa
      refine ⟨?_, ?_⟩
      · rw [e1, e2]
        exact ((p1.symm.trans h.1).trans p2).cons_inv
      · rw [e1]
        exact h.2.sublist ((List.eraseP_sublist _).map _)

-- The seeding loop of lldp_create keeps an instance well formed.

theorem wf_lldp_create_seed_loop :
    ∀ (gm : List AaMappingInternal) (l : Lldp) (hw : LldpdHardware),
      WFInst l → WFInst (lldp_create_seed_loop gm l hw).1 := by
  intro gm
  induction gm with
  | nil => intro l hw h; exact h
  | cons m rest ih =>
    intro l hw h
    cases hf : mapping_find_by_isid l m.isid with
    | some q =>
      simp only [lldp_create_seed_loop, hf, Option.isSome_some, if_true]
      exact ih l hw h
    | none =>
      simp only [lldp_create_seed_loop, hf, Option.isSome_none,
        Bool.false_eq_true, if_false]
      apply ih
      refine ⟨?_, ?_⟩
      · exact h.1.cons _
      · show ((m :: l.mappings_by_isid).map (fun x => x.isid)).Nodup
        rw [List.map_cons]
        refine List.nodup_cons.mpr ⟨?_, h.2⟩
        intro hmem
        obtain ⟨x, hx, hxe⟩ := List.mem_map.mp hmem
        exact (mapping_find_by_isid_none l m.isid).mp hf x hx hxe

-- Draining rewrites every instance queue to [] and appends the drained
-- operations, in per-instance FIFO order, to the output list.

theorem aa_get_vlan_queued_port_spec :
    ∀ (q out : List BridgeAaVlan), aa_get_vlan_queued_port q out = out ++ q := by
  intro q
  induction q with
  | nil => intro out; simp [aa_get_vlan_queued_port]
  | cons n rest ih =>
    intro out
    rw [aa_get_vlan_queued_port, ih]
    simp

theorem aa_get_vlan_queued_loop_spec :
    ∀ (regs : List Lldp) (out : List BridgeAaVlan),
      aa_get_vlan_queued_loop regs out =
        (regs.map (fun l => { l with active_mapping_queue := [] }),
         out ++ (regs.map (fun l => l.active_mapping_queue)).flatten) := by
  intro regs
  induction regs with
  | nil => intro out; simp [aa_get_vlan_queued_loop]
  | cons l rest ih =>
    intro out
    rw [aa_get_vlan_queued_loop, aa_get_vlan_queued_port_spec, ih]
    simp [List.append_assoc]

-- The unregister instance loop, projected to the instance list, acts
-- pointwise (the instance result does not depend on the threaded global
-- table).

theorem aa_mapping_unregister_lldp_fst_indep (aux : Nat) (l : Lldp)
    (am am2 : List AaMappingInternal) :
    (aa_mapping_unregister_lldp aux l am).1 =
      (aa_mapping_unregister_lldp aux l am2).1 := by
  unfold aa_mapping_unregister_lldp
  cases hfa : mapping_find_by_aux l aux with
  | none => rfl
  | some m => rfl

theorem aa_mapping_unregister_loop_fst (aux : Nat) :
    ∀ (regs : List Lldp) (am : List AaMappingInternal),
      (aa_mapping_unregister_loop aux regs am).1 =
        regs.map (fun l => (aa_mapping_unregister_lldp aux l []).1) := by
  intro regs
  induction regs with
  | nil => intro am; rfl
  | cons l rest ih =>
    intro am
    rw [aa_mapping_unregister_loop]
    rw [List.map_cons]
    refine congrArg₂ _ ?_ (ih _)
    exact aa_mapping_unregister_lldp_fst_indep aux l am []

-- lldp_create never touches the dummies and either leaves the registry
-- alone or conses one well-formed instance onto it.

theorem lldp_create_fst_dummies (s : AAState) (dev : String) (mtu : Nat)
    (cfg : Option Smap) :
    (lldp_create s dev mtu cfg).1.dummies = s.dummies := by
  unfold lldp_create
  cases cfg with
  | none => rfl
  | some c =>
    dsimp only
    cases he : smap_get_bool c false <;> rfl

theorem lldp_create_fst_all_lldps_cases (s : AAState) (dev : String)
    (mtu : Nat) (cfg : Option Smap) :
    (lldp_create s dev mtu cfg).1.all_lldps = s.all_lldps ∨
    ∃ l2, (lldp_create s dev mtu cfg).1.all_lldps = l2 :: s.all_lldps ∧
      WFInst l2 := by
  unfold lldp_create
  cases cfg with
  | none => exact Or.inl rfl
  | some c =>
    dsimp only
    cases he : smap_get_bool c false with
    | false => exact Or.inl rfl
    | true =>
      refine Or.inr ⟨_, rfl, ?_⟩
      have hwf := wf_lldp_create_seed_loop s.all_mappings
        (Lldp.mk dev [] [] [] [LldpdHardware.mk dev mtu (LldpdPort.mk []) []]
          [LldpdChassis.mk none none])
        (LldpdHardware.mk dev mtu (LldpdPort.mk []) [])
        ⟨List.Perm.nil, List.nodup_nil⟩
      exact ⟨hwf.1, hwf.2⟩

theorem wf_aa_mapping_unregister_loop_mem (aux : Nat) (regs : List Lldp)
    (am : List AaMappingInternal) (h : ∀ l ∈ regs, WFInst l) :
    ∀ l2 ∈ (aa_mapping_unregister_loop aux regs am).1, WFInst l2 := by
  intro l2 hl2
  rw [aa_mapping_unregister_loop_fst] at hl2
  obtain ⟨x, hx, rfl⟩ := List.mem_map.mp hl2
  exact wf_aa_mapping_unregister_lldp aux x [] (h x hx)

-- Every public operation preserves the process-state invariant.

theorem invState_stepAA (s : AAState) (op : AAOp) (h : InvState s) :
    InvState (stepAA s op) := by
  cases op with
  | create dev mtu cfg =>
    refine ⟨?_, ?_⟩
    · intro l hl
      rcases lldp_create_fst_all_lldps_cases s dev mtu cfg with hc | ⟨l2, he, hwf⟩
      · have hl2 : l ∈ (lldp_create s dev mtu cfg).1.all_lldps := hl
        rw [hc] at hl2
        exact h.1 l hl2
      · have hl2 : l ∈ (lldp_create s dev mtu cfg).1.all_lldps := hl
        rw [he] at hl2
        rcases List.mem_cons.mp hl2 with rfl | hmem
        · exact hwf
        · exact h.1 l hmem
    · intro l hl
      have hl2 : l ∈ (lldp_create s dev mtu cfg).1.dummies := hl
      rw [lldp_create_fst_dummies] at hl2
      exact h.2 l hl2
  | createDummy =>
    refine ⟨h.1, ?_⟩
    intro l hl
    have hl2 : l ∈ s.dummies ++ [lldp_create_dummy] := hl
    rcases List.mem_append.mp hl2 with hmem | hmem
    · exact h.2 l hmem
    · cases List.mem_singleton.mp hmem
      exact ⟨List.Perm.nil, List.nodup_nil⟩
  | register aux isid vlan =>
    refine ⟨?_, h.2⟩
    intro l hl
    have hl2 : l ∈ s.all_lldps.map (aa_mapping_register_lldp aux isid vlan) := hl
    obtain ⟨x, hx, rfl⟩ := List.mem_map.mp hl2
    exact wf_aa_mapping_register_lldp aux isid vlan x (h.1 x hx)
  | unregister aux =>
    refine ⟨?_, h.2⟩
    intro l hl
    exact wf_aa_mapping_unregister_loop_mem aux s.all_lldps s.all_mappings h.1 l hl
  | drain =>
    refine ⟨?_, h.2⟩
    intro l hl
    have hl2 : l ∈ (aa_get_vlan_queued_loop s.all_lldps []).1 := hl
    rw [aa_get_vlan_queued_loop_spec] at hl2
    obtain ⟨x, hx, rfl⟩ := List.mem_map.mp hl2
    exact ⟨(h.1 x hx).1, (h.1 x hx).2⟩
  | configure stg =>
    refine ⟨?_, h.2⟩
    intro l hl
    have hl2 : l ∈ s.all_lldps.map (fun l => { l with
      g_chassis := l.g_chassis.map (fun c => { c with
        c_descr := some (if stg.system_description ≠ "" then
          stg.system_description else PACKAGE_STRING),
        c_name := some stg.system_name }) }) := hl
    obtain ⟨x, hx, rfl⟩ := List.mem_map.mp hl2
    exact ⟨(h.1 x hx).1, (h.1 x hx).2⟩

theorem invState_initial : InvState initialAAState :=
  ⟨fun l hl => absurd hl (List.not_mem_nil l),
   fun l hl => absurd hl (List.not_mem_nil l)⟩

theorem invState_runOps :
    ∀ (ops : List AAOp) (s : AAState), InvState s → InvState (runOps s ops) := by
  intro ops
  induction ops with
  | nil => intro s h; exact h
  | cons op rest ih =>
    intro s h
    exact ih (stepAA s op) (invState_stepAA s op h)

/-- C1: for every protocol instance, after any sequence of create,
    create_dummy, register_mapping, unregister_mapping and drain calls (and
    chassis configuration) starting from the initial empty state, the set of
    mapping entities held in the mappings_by_isid index equals the set held in
    the mappings_by_aux index: no entity is present in one index but not the
    other. -/
theorem aa_dual_index_consistency (ops : List AAOp) (l : Lldp)
    (hl : l ∈ (runOps initialAAState ops).all_lldps ∨
          l ∈ (runOps initialAAState ops).dummies)
    (m : AaMappingInternal) :
    m ∈ l.mappings_by_isid ↔ m ∈ l.mappings_by_aux := by
  have hinv := invState_runOps ops initialAAState invState_initial
  rcases hl with hmem | hmem
  · exact (hinv.1 l hmem).1.mem_iff
  · exact (hinv.2 l hmem).1.mem_iff

/-- Witness for C1 at a concrete call sequence, instance and entity. -/
theorem aa_dual_index_consistency_witness :
    ({ isid := 5, vlan := 7, aux := 1, status := 255 } : AaMappingInternal)
        ∈ lldp_create_dummy.mappings_by_isid ↔
    ({ isid := 5, vlan := 7, aux := 1, status := 255 } : AaMappingInternal)
        ∈ lldp_create_dummy.mappings_by_aux :=
  aa_dual_index_consistency [AAOp.createDummy] lldp_create_dummy
    (Or.inr (by decide)) { isid := 5, vlan := 7, aux := 1, status := 255 }

-- Full shape of one instance with a single hardware record after a
-- registration of a fresh I-SID.

theorem aa_mapping_register_lldp_new_single (aux : Nat) (isid vlan : Int)
    (l : Lldp) (hw : LldpdHardware)
    (hn : mapping_find_by_isid l isid = none)
    (hhw : l.hardware = [hw]) :
    aa_mapping_register_lldp aux isid vlan l =
      { name := l.name,
        mappings_by_isid :=
          AaMappingInternal.mk isid vlan aux AA_STATUS_PENDING
            :: l.mappings_by_isid,
        mappings_by_aux :=
          AaMappingInternal.mk isid vlan aux AA_STATUS_PENDING
            :: l.mappings_by_aux,
        active_mapping_queue := l.active_mapping_queue ++
          [BridgeAaVlan.mk hw.h_ifname (toU32 vlan) BridgeAaVlanOper.add],
        hardware :=
          [LldpdHardware.mk hw.h_ifname hw.h_mtu
            (LldpdPort.mk (hw.h_lport.p_isid_vlan_maps ++
              [LldpdAaIsidVlanMapsTlv.mk (toU32 isid) vlan 0]))
            hw.h_rports],
        g_chassis := l.g_chassis } := by
  unfold aa_mapping_register_lldp
  rw [hn]
  dsimp only
  rw [hhw]
  rfl

theorem aa_mapping_register_lldp_find_self (aux : Nat) (isid vlan : Int)
    (l : Lldp) (hn : mapping_find_by_isid l isid = none) :
    mapping_find_by_isid (aa_mapping_register_lldp aux isid vlan l) isid =
      some (AaMappingInternal.mk isid vlan aux AA_STATUS_PENDING) := by
  unfold mapping_find_by_isid
  rw [(aa_mapping_register_lldp_new aux isid vlan l hn).1]
  simp [List.find?]

/-- C2: registering the same (opaque_ref, isid, vlan) twice, from a state in
    which the instance has no entity for that I-SID, leaves exactly one entity
    for that I-SID on that instance and exactly one queued Add(port_name,
    vlan) operation, not two: the second registration is a no-op on every
    instance that already holds the I-SID. -/
theorem aa_mapping_register_idempotent (s : AAState) (aux : Nat)
    (isid vlan : Int) (l : Lldp) (hw : LldpdHardware)
    (hmem : l ∈ s.all_lldps)
    (hnone : mapping_find_by_isid l isid = none)
    (hhw : l.hardware = [hw]) :
    (aa_mapping_register
        (aa_mapping_register s aux isid vlan).1 aux isid vlan).1.all_lldps =
      s.all_lldps.map (fun x =>
        aa_mapping_register_lldp aux isid vlan
          (aa_mapping_register_lldp aux isid vlan x)) ∧
    aa_mapping_register_lldp aux isid vlan
        (aa_mapping_register_lldp aux isid vlan l) =
      aa_mapping_register_lldp aux isid vlan l ∧
    aa_mapping_register_lldp aux isid vlan
        (aa_mapping_register_lldp aux isid vlan l) ∈
      (aa_mapping_register (aa_mapping_register s aux isid vlan).1
        aux isid vlan).1.all_lldps ∧
    ((aa_mapping_register_lldp aux isid vlan l).mappings_by_isid.filter
        (fun m => m.isid == isid)).length = 1 ∧
    (aa_mapping_register_lldp aux isid vlan l).active_mapping_queue =
      l.active_mapping_queue ++
        [BridgeAaVlan.mk hw.h_ifname (toU32 vlan) BridgeAaVlanOper.add] := by
  have hskip : aa_mapping_register_lldp aux isid vlan
      (aa_mapping_register_lldp aux isid vlan l) =
      aa_mapping_register_lldp aux isid vlan l :=
    aa_mapping_register_lldp_skip aux isid vlan _ _
      (aa_mapping_register_lldp_find_self aux isid vlan l hnone)
  have hmap : (aa_mapping_register
      (aa_mapping_register s aux isid vlan).1 aux isid vlan).1.all_lldps =
      s.all_lldps.map (fun x =>
        aa_mapping_register_lldp aux isid vlan
          (aa_mapping_register_lldp aux isid vlan x)) := by
    show (s.all_lldps.map (aa_mapping_register_lldp aux isid vlan)).map
        (aa_mapping_register_lldp aux isid vlan) = _
    rw [List.map_map]
    rfl
  refine ⟨hmap, hskip, ?_, ?_, ?_⟩
  · rw [hmap]
    exact List.mem_map_of_mem _ hmem
  · rw [(aa_mapping_register_lldp_new aux isid vlan l hnone).1]
    rw [List.filter_cons]
    have hne : ∀ m ∈ l.mappings_by_isid, ¬((fun m => m.isid == isid) m = true) := by
      intro m hm
      simpa using (mapping_find_by_isid_none l isid).mp hnone m hm
    rw [List.filter_eq_nil_iff.mpr hne]
    simp
  · rw [aa_mapping_register_lldp_new_single aux isid vlan l hw hnone hhw]

/-- Witness for C2 at a concrete state with one instance and one hardware
    record. -/
def c2Hw : LldpdHardware :=
  { h_ifname := "p1", h_mtu := 1500,
    h_lport := { p_isid_vlan_maps := [] }, h_rports := [] }

/-- The concrete instance used by the C2 witness. -/
def c2Inst : Lldp :=
  { name := "p1", mappings_by_isid := [], mappings_by_aux := [],
    active_mapping_queue := [], hardware := [c2Hw], g_chassis := [] }

/-- The concrete process state used by the C2 witness. -/
def c2State : AAState :=
  { all_lldps := [c2Inst], all_mappings := [], dummies := [] }

/-- Witness for C2: the double registration at aux 1, I-SID 100, VLAN 10 on
    the concrete one-instance state. -/
theorem aa_mapping_register_idempotent_witness :
    aa_mapping_register_lldp 1 100 10
        (aa_mapping_register_lldp 1 100 10 c2Inst) =
      aa_mapping_register_lldp 1 100 10 c2Inst ∧
    ((aa_mapping_register_lldp 1 100 10 c2Inst).mappings_by_isid.filter
        (fun m => m.isid == (100 : Int))).length = 1 ∧
    (aa_mapping_register_lldp 1 100 10 c2Inst).active_mapping_queue =
      c2Inst.active_mapping_queue ++
        [BridgeAaVlan.mk c2Hw.h_ifname (toU32 10) BridgeAaVlanOper.add] :=
  ⟨(aa_mapping_register_idempotent c2State 1 100 10 c2Inst c2Hw
      (by decide) (by decide) rfl).2.1,
   (aa_mapping_register_idempotent c2State 1 100 10 c2Inst c2Hw
      (by decide) (by decide) rfl).2.2.2.1,
   (aa_mapping_register_idempotent c2State 1 100 10 c2Inst c2Hw
      (by decide) (by decide) rfl).2.2.2.2⟩

-- Supporting facts for the register/unregister round trip.

theorem aa_mapping_register_lldp_find_aux_self (aux : Nat) (isid vlan : Int)
    (l : Lldp) (hn : mapping_find_by_isid l isid = none) :
    mapping_find_by_aux (aa_mapping_register_lldp aux isid vlan l) aux =
      some (AaMappingInternal.mk isid vlan aux AA_STATUS_PENDING) := by
  unfold mapping_find_by_aux
  rw [(aa_mapping_register_lldp_new aux isid vlan l hn).2]
  simp [List.find?]

theorem aa_mapping_unregister_lldp_eq_found (aux : Nat) (l : Lldp)
    (am : List AaMappingInternal) (m : AaMappingInternal)
    (hfa : mapping_find_by_aux l aux = some m) :
    aa_mapping_unregister_lldp aux l am =
      aa_mapping_unregister_lldp_found aux m l am := by
  unfold aa_mapping_unregister_lldp
  rw [hfa]

theorem aa_mapping_unregister_lldp_found_snd (aux : Nat)
    (m : AaMappingInternal) (l : Lldp) (am : List AaMappingInternal) :
    (aa_mapping_unregister_lldp_found aux m l am).2 =
      if 0 ≤ m.isid ∧ 0 ≤ m.vlan then
        am.eraseP (fun x => x.isid == m.isid && x.vlan == m.vlan)
      else am := rfl

theorem aa_mapping_unregister_mapping_fst_found (l : Lldp)
    (hw : LldpdHardware) (m : AaMappingInternal)
    (hf : (hw.h_lport.p_isid_vlan_maps.find?
      (fun lm => lm.isid == toU32 m.isid)).isSome) :
    (aa_mapping_unregister_mapping l hw m).1 =
      { l with active_mapping_queue := l.active_mapping_queue ++
        [BridgeAaVlan.mk hw.h_ifname (toU32 m.vlan)
          BridgeAaVlanOper.remove] } := by
  unfold aa_mapping_unregister_mapping
  obtain ⟨v, hv⟩ := Option.isSome_iff_exists.mp hf
  rw [hv]

-- The per-instance effect of register(aux, 100, 10) followed by
-- unregister(aux): the indices are restored exactly.

theorem c3_inst_mappings (aux : Nat) (l : Lldp)
    (hn : mapping_find_by_isid l (100 : Int) = none) :
    (aa_mapping_unregister_lldp aux
        (aa_mapping_register_lldp aux 100 10 l) []).1.mappings_by_isid =
      l.mappings_by_isid ∧
    (aa_mapping_unregister_lldp aux
        (aa_mapping_register_lldp aux 100 10 l) []).1.mappings_by_aux =
      l.mappings_by_aux := by
  rw [aa_mapping_unregister_lldp_eq_found aux _ []
    (AaMappingInternal.mk 100 10 aux AA_STATUS_PENDING)
    (aa_mapping_register_lldp_find_aux_self aux 100 10 l hn)]
  obtain ⟨e1, e2⟩ := aa_mapping_unregister_lldp_found_fst aux
    (AaMappingInternal.mk 100 10 aux AA_STATUS_PENDING)
    (aa_mapping_register_lldp aux 100 10 l) []
  rw [aa_mapping_register_lldp_find_self aux 100 10 l hn] at e1
  dsimp only at e1
  rw [(aa_mapping_register_lldp_new aux 100 10 l hn).1] at e1
  rw [(aa_mapping_register_lldp_new aux 100 10 l hn).2] at e2
  rw [List.eraseP_cons_of_pos (by simp)] at e1
  rw [List.eraseP_cons_of_pos (by simp)] at e2
  exact ⟨e1, e2⟩

-- The per-instance queue effect with a single hardware record: exactly one
-- Add followed by exactly one Remove.

theorem c3_inst_queue (aux : Nat) (l : Lldp) (hw : LldpdHardware)
    (hn : mapping_find_by_isid l (100 : Int) = none)
    (hhw : l.hardware = [hw]) :
    (aa_mapping_unregister_lldp aux
        (aa_mapping_register_lldp aux 100 10 l) []).1.active_mapping_queue =
      l.active_mapping_queue ++
        [BridgeAaVlan.mk hw.h_ifname (toU32 10) BridgeAaVlanOper.add,
         BridgeAaVlan.mk hw.h_ifname (toU32 10) BridgeAaVlanOper.remove] := by
  rw [aa_mapping_unregister_lldp_eq_found aux _ []
    (AaMappingInternal.mk 100 10 aux AA_STATUS_PENDING)
    (aa_mapping_register_lldp_find_aux_self aux 100 10 l hn)]
  rw [aa_mapping_register_lldp_new_single aux 100 10 l hw hn hhw]
  unfold aa_mapping_unregister_lldp_found
  dsimp only
  rw [List.foldl_cons, List.foldl_nil]
  unfold aa_mapping_unregister_hw_step
  dsimp only
  rw [aa_mapping_unregister_mapping_fst_found]
  · dsimp only
    rw [List.append_assoc]
    rfl
  · apply List.find?_isSome.mpr
    refine ⟨LldpdAaIsidVlanMapsTlv.mk (toU32 100) 10 0, ?_, by simp⟩
    simp

-- Threading the global table through the instance loop: the first instance
-- removes the freshly registered global entry, every later instance leaves
-- the table alone.

theorem c3_loop_keeps (aux : Nat) (G : List AaMappingInternal)
    (hG : ∀ m ∈ G, m.isid ≠ 100) :
    ∀ regs2 : List Lldp,
      (∀ l ∈ regs2, mapping_find_by_isid l (100 : Int) = none) →
      (aa_mapping_unregister_loop aux
        (regs2.map (aa_mapping_register_lldp aux 100 10)) G).2 = G := by
  intro regs2
  induction regs2 with
  | nil => intro _; rfl
  | cons x rest ih =>
    intro hall
    rw [List.map_cons, aa_mapping_unregister_loop]
    have hstep : (aa_mapping_unregister_lldp aux
        (aa_mapping_register_lldp aux 100 10 x) G).2 = G := by
      rw [aa_mapping_unregister_lldp_eq_found aux _ G
        (AaMappingInternal.mk 100 10 aux AA_STATUS_PENDING)
        (aa_mapping_register_lldp_find_aux_self aux 100 10 x
          (hall x (List.mem_cons_self x rest)))]
      rw [aa_mapping_unregister_lldp_found_snd]
      rw [if_pos (by norm_num)]
      apply List.eraseP_of_forall_not
      intro a ha
      have : a.isid ≠ 100 := hG a ha
      simp [this]
    dsimp only
    rw [hstep]
    exact ih (fun l hl => hall l (List.mem_cons_of_mem x hl))

theorem c3_loop_all_mappings (aux : Nat) (G : List AaMappingInternal)
    (hG : ∀ m ∈ G, m.isid ≠ 100) :
    ∀ regs : List Lldp, (∀ l ∈ regs, mapping_find_by_isid l (100 : Int) = none) →
      regs ≠ [] →
      (aa_mapping_unregister_loop aux
        (regs.map (aa_mapping_register_lldp aux 100 10))
        (AaMappingInternal.mk 100 10 aux AA_STATUS_PENDING :: G)).2 = G := by
  intro regs hall hne
  cases regs with
  | nil => exact absurd rfl hne
  | cons x rest =>
    rw [List.map_cons, aa_mapping_unregister_loop]
    have hstep : (aa_mapping_unregister_lldp aux
        (aa_mapping_register_lldp aux 100 10 x)
        (AaMappingInternal.mk 100 10 aux AA_STATUS_PENDING :: G)).2 = G := by
      rw [aa_mapping_unregister_lldp_eq_found aux _ _
        (AaMappingInternal.mk 100 10 aux AA_STATUS_PENDING)
        (aa_mapping_register_lldp_find_aux_self aux 100 10 x
          (hall x (List.mem_cons_self x rest)))]
      rw [aa_mapping_unregister_lldp_found_snd]
      rw [if_pos (by norm_num)]
      rw [List.eraseP_cons_of_pos (by simp)]
    dsimp only
    rw [hstep]
    exact c3_loop_keeps aux G hG rest
      (fun l hl => hall l (List.mem_cons_of_mem x hl))

/-- C3 (counterexample): in a state with no instances at all — which
    satisfies the claim preconditions (no instance holds I-SID 100, the
    global table has no entry for I-SID 100) — register(aux=1, isid=100,
    vlan=10) followed by unregister(aux=1) leaves ONE entry for I-SID 100 in
    the Global Mapping Table, not zero: the global removal sits inside the
    per-instance loop, which never runs. -/
theorem aa_round_trip_counterexample :
    initialAAState.all_lldps = [] ∧
    initialAAState.all_mappings = [] ∧
    ((aa_mapping_unregister
        (aa_mapping_register initialAAState 1 100 10).1 1).1.all_mappings.filter
      (fun m => m.isid == (100 : Int))).length = 1 := by
  decide

/-- C3 (amended): starting from a state in which no instance holds an entity
    for I-SID 100 (in either index) and the Global Mapping Table has no entry
    for I-SID 100, register(ref, 100, 10) then unregister(ref) restores every
    instance index exactly (so zero entities for I-SID 100 everywhere) and,
    PROVIDED at least one instance existed at registration time, leaves zero
    entries for I-SID 100 in the Global Mapping Table (with no instances the
    entry remains, as its removal happens inside the per-instance loop); each
    instance with its single hardware record receives exactly one
    Add(vlan=10) followed by exactly one Remove(vlan=10) on its op queue. -/
theorem aa_register_unregister_round_trip (s : AAState) (aux : Nat)
    (hno : ∀ l ∈ s.all_lldps, ∀ m ∈ l.mappings_by_isid, m.isid ≠ 100)
    (hno2 : ∀ l ∈ s.all_lldps, ∀ m ∈ l.mappings_by_aux, m.isid ≠ 100)
    (hglob : ∀ m ∈ s.all_mappings, m.isid ≠ 100)
    (hne : s.all_lldps ≠ []) :
    (aa_mapping_unregister
        (aa_mapping_register s aux 100 10).1 aux).1.all_mappings =
      s.all_mappings ∧
    (∀ m ∈ (aa_mapping_unregister
        (aa_mapping_register s aux 100 10).1 aux).1.all_mappings,
      m.isid ≠ 100) ∧
    (aa_mapping_unregister
        (aa_mapping_register s aux 100 10).1 aux).1.all_lldps =
      s.all_lldps.map (fun x =>
        (aa_mapping_unregister_lldp aux
          (aa_mapping_register_lldp aux 100 10 x) []).1) ∧
    (∀ l ∈ s.all_lldps,
      (aa_mapping_unregister_lldp aux
          (aa_mapping_register_lldp aux 100 10 l) []).1.mappings_by_isid =
        l.mappings_by_isid ∧
      (aa_mapping_unregister_lldp aux
          (aa_mapping_register_lldp aux 100 10 l) []).1.mappings_by_aux =
        l.mappings_by_aux ∧
      (∀ m ∈ (aa_mapping_unregister_lldp aux
          (aa_mapping_register_lldp aux 100 10 l) []).1.mappings_by_isid,
        m.isid ≠ 100) ∧
      (∀ m ∈ (aa_mapping_unregister_lldp aux
          (aa_mapping_register_lldp aux 100 10 l) []).1.mappings_by_aux,
        m.isid ≠ 100) ∧
      (∀ hw, l.hardware = [hw] →
        (aa_mapping_unregister_lldp aux
            (aa_mapping_register_lldp aux 100 10 l) []).1.active_mapping_queue =
          l.active_mapping_queue ++
            [BridgeAaVlan.mk hw.h_ifname (toU32 10) BridgeAaVlanOper.add,
             BridgeAaVlan.mk hw.h_ifname (toU32 10)
               BridgeAaVlanOper.remove])) := by
  have hnall : ∀ l ∈ s.all_lldps, mapping_find_by_isid l (100 : Int) = none :=
    fun l hl => (mapping_find_by_isid_none l 100).mpr (hno l hl)
  have hglobal : (aa_mapping_unregister
      (aa_mapping_register s aux 100 10).1 aux).1.all_mappings =
      s.all_mappings := by
    show (aa_mapping_unregister_loop aux
      (s.all_lldps.map (aa_mapping_register_lldp aux 100 10))
      (AaMappingInternal.mk 100 10 aux AA_STATUS_PENDING
        :: s.all_mappings)).2 = s.all_mappings
    exact c3_loop_all_mappings aux s.all_mappings hglob s.all_lldps hnall hne
  refine ⟨hglobal, ?_, ?_, ?_⟩
  · rw [hglobal]; exact hglob
  · show (aa_mapping_unregister_loop aux
      (s.all_lldps.map (aa_mapping_register_lldp aux 100 10))
      (AaMappingInternal.mk 100 10 aux AA_STATUS_PENDING
        :: s.all_mappings)).1 = _
    rw [aa_mapping_unregister_loop_fst, List.map_map]
    rfl
  · intro l hl
    have hn := hnall l hl
    obtain ⟨e1, e2⟩ := c3_inst_mappings aux l hn
    refine ⟨e1, e2, ?_, ?_, ?_⟩
    · rw [e1]; exact hno l hl
    · rw [e2]; exact hno2 l hl
    · intro hw hhw
      exact c3_inst_queue aux l hw hn hhw

/-- The concrete hardware record used by the C3 witness. -/
def c3Hw : LldpdHardware :=
  { h_ifname := "p2", h_mtu := 1500,
    h_lport := { p_isid_vlan_maps := [] }, h_rports := [] }

/-- The concrete instance used by the C3 witness. -/
def c3Inst : Lldp :=
  { name := "p2", mappings_by_isid := [], mappings_by_aux := [],
    active_mapping_queue := [], hardware := [c3Hw], g_chassis := [] }

/-- The concrete process state used by the C3 witness. -/
def c3State : AAState :=
  { all_lldps := [c3Inst], all_mappings := [], dummies := [] }

/-- Witness for the amended C3 at the concrete one-instance state. -/
theorem aa_register_unregister_round_trip_witness :
    (aa_mapping_unregister
        (aa_mapping_register c3State 7 100 10).1 7).1.all_mappings =
      c3State.all_mappings ∧
    (aa_mapping_unregister
        (aa_mapping_register c3State 7 100 10).1 7).1.all_lldps =
      c3State.all_lldps.map (fun x =>
        (aa_mapping_unregister_lldp 7
          (aa_mapping_register_lldp 7 100 10 x) []).1) :=
  ⟨(aa_register_unregister_round_trip c3State 7 (by decide) (by decide)
      (by decide) (by decide)).1,
   (aa_register_unregister_round_trip c3State 7 (by decide) (by decide)
      (by decide) (by decide)).2.2.1⟩

/-- C4: if the mapping (I-SID 200, VLAN 20) is registered in the Global
    Mapping Table before any instance exists, then create(device, mtu,
    enable=true) returns an instance whose indices already contain the
    I-SID 200 / VLAN 20 entity with status Pending and whose op queue already
    contains exactly one Add(vlan=20) operation, before any registration call
    on that instance. -/
theorem lldp_create_seeds_from_global (aux : Nat) (dev : String) (mtu : Nat) :
    (lldp_create (aa_mapping_register initialAAState aux 200 20).1
        dev mtu (some { enable := some true })).2 =
      some
        { name := dev,
          mappings_by_isid :=
            [AaMappingInternal.mk 200 20 aux AA_STATUS_PENDING],
          mappings_by_aux :=
            [AaMappingInternal.mk 200 20 aux AA_STATUS_PENDING],
          active_mapping_queue :=
            [BridgeAaVlan.mk dev (toU32 20) BridgeAaVlanOper.add],
          hardware := [LldpdHardware.mk dev mtu
            (LldpdPort.mk [LldpdAaIsidVlanMapsTlv.mk (toU32 200) 20 0]) []],
          g_chassis := [LldpdChassis.mk none none] } ∧
    (lldp_create (aa_mapping_register initialAAState aux 200 20).1
        dev mtu (some { enable := some true })).1.all_lldps =
      [{ name := dev,
         mappings_by_isid :=
           [AaMappingInternal.mk 200 20 aux AA_STATUS_PENDING],
         mappings_by_aux :=
           [AaMappingInternal.mk 200 20 aux AA_STATUS_PENDING],
         active_mapping_queue :=
           [BridgeAaVlan.mk dev (toU32 20) BridgeAaVlanOper.add],
         hardware := [LldpdHardware.mk dev mtu
           (LldpdPort.mk [LldpdAaIsidVlanMapsTlv.mk (toU32 200) 20 0]) []],
         g_chassis := [LldpdChassis.mk none none] }] := by
  exact ⟨rfl, rfl⟩

-- Sum of queue lengths over cleared instances is the accumulator.

theorem queue_size_fold_cleared :
    ∀ (L : List Lldp) (n : Nat),
      ((L.map (fun l => { l with
          active_mapping_queue := ([] : List BridgeAaVlan) })).foldl
        (fun size l => size + l.active_mapping_queue.length) n) = n := by
  intro L
  induction L with
  | nil => intro n; rfl
  | cons x rest ih => intro n; simpa using ih n

/-- C6: drain_all_pending_vlan_ops removes every queued operation from every
    live instance queue — pending_count called immediately afterwards returns
    0 — and appends one copy of each operation to the output list, preserving
    FIFO order within each instance queue, instances visited in registry
    iteration order. -/
theorem aa_get_vlan_queued_drains_all (s : AAState) (out : List BridgeAaVlan) :
    (aa_get_vlan_queued s out).2.1 =
      out ++ (s.all_lldps.map (fun l => l.active_mapping_queue)).flatten ∧
    (aa_get_vlan_queued s out).1.all_lldps =
      s.all_lldps.map (fun l => { l with active_mapping_queue := [] }) ∧
    aa_get_vlan_queue_size (aa_get_vlan_queued s out).1 = 0 := by
  have h := aa_get_vlan_queued_loop_spec s.all_lldps out
  refine ⟨?_, ?_, ?_⟩
  · show (aa_get_vlan_queued_loop s.all_lldps out).2 = _
    rw [h]
  · show (aa_get_vlan_queued_loop s.all_lldps out).1 = _
    rw [h]
  · show ((aa_get_vlan_queued_loop s.all_lldps out).1).foldl
      (fun size l => size + l.active_mapping_queue.length) 0 = 0
    rw [h]
    exact queue_size_fold_cleared s.all_lldps 0

/-- C7 (code evaluation at the failing input): with a 10-byte engine payload,
    lldp_put_packet writes a 24-byte frame — Ethernet header, then payload —
    and computes the 68-byte minimum into the local lldp_size, which is never
    applied: the emitted frame stays below MINIMUM_ETH_PACKET_SIZE, while the
    transmit timer is re-armed with the configured interval. -/
theorem lldp_put_packet_min_size_dead_store :
    (lldp_put_packet [1, 2, 3, 4, 5, 6]
        [9, 9, 9, 9, 9, 9, 9, 9, 9, 9] 30000).packet =
      ETH_ADDR_LLDP ++ [1, 2, 3, 4, 5, 6] ++ [0x88, 0xcc] ++
        [9, 9, 9, 9, 9, 9, 9, 9, 9, 9] ∧
    (lldp_put_packet [1, 2, 3, 4, 5, 6]
        [9, 9, 9, 9, 9, 9, 9, 9, 9, 9] 30000).packet.length = 24 ∧
    (lldp_put_packet [1, 2, 3, 4, 5, 6]
        [9, 9, 9, 9, 9, 9, 9, 9, 9, 9] 30000).lldp_size =
      MINIMUM_ETH_PACKET_SIZE ∧
    (lldp_put_packet [1, 2, 3, 4, 5, 6]
        [9, 9, 9, 9, 9, 9, 9, 9, 9, 9] 30000).packet.length <
      MINIMUM_ETH_PACKET_SIZE ∧
    (lldp_put_packet [1, 2, 3, 4, 5, 6]
        [9, 9, 9, 9, 9, 9, 9, 9, 9, 9] 30000).tx_timer = 30000 := by
  decide

-- Unregistering a token held by no instance changes nothing.

theorem aa_mapping_unregister_loop_id (aux : Nat) :
    ∀ (regs : List Lldp) (am : List AaMappingInternal),
      (∀ l ∈ regs, mapping_find_by_aux l aux = none) →
      aa_mapping_unregister_loop aux regs am = (regs, am) := by
  intro regs
  induction regs with
  | nil => intro am _; rfl
  | cons x rest ih =>
    intro am hall
    rw [aa_mapping_unregister_loop]
    have hx : aa_mapping_unregister_lldp aux x am = (x, am) := by
      unfold aa_mapping_unregister_lldp
      rw [hall x (List.mem_cons_self x rest)]
    rw [hx, ih am (fun l hl => hall l (List.mem_cons_of_mem x hl))]

/-- C8: unregistering an opaque_ref held by no instance leaves the whole
    state — every instance index and queue and the Global Mapping Table —
    unchanged and is not an error; moreover register_mapping and
    unregister_mapping return the same fixed success indicator (0) on every
    input, so a caller cannot distinguish the outcomes. -/
theorem aa_mapping_unregister_unknown_noop (s : AAState) (aux : Nat)
    (h : ∀ l ∈ s.all_lldps, mapping_find_by_aux l aux = none) :
    aa_mapping_unregister s aux = (s, 0) ∧
    (∀ (s2 : AAState) (a2 : Nat) (i2 v2 : Int),
      (aa_mapping_register s2 a2 i2 v2).2 = 0) ∧
    (∀ (s3 : AAState) (a3 : Nat), (aa_mapping_unregister s3 a3).2 = 0) := by
  refine ⟨?_, fun _ _ _ _ => rfl, fun _ _ => rfl⟩
  unfold aa_mapping_unregister
  rw [aa_mapping_unregister_loop_id aux s.all_lldps s.all_mappings h]

/-- The concrete instance used by the C8 witness: it holds one entity with
    aux token 9, so token 5 is unknown. -/
def c8Inst : Lldp :=
  { name := "p3",
    mappings_by_isid := [AaMappingInternal.mk 3 4 9 255],
    mappings_by_aux := [AaMappingInternal.mk 3 4 9 255],
    active_mapping_queue := [], hardware := [], g_chassis := [] }

/-- The concrete process state used by the C8 witness. -/
def c8State : AAState :=
  { all_lldps := [c8Inst],
    all_mappings := [AaMappingInternal.mk 3 4 9 255], dummies := [] }

/-- Witness for C8: unregistering the unknown token 5. -/
theorem aa_mapping_unregister_unknown_noop_witness :
    aa_mapping_unregister c8State 5 = (c8State, 0) :=
  (aa_mapping_unregister_unknown_noop c8State 5 (by decide)).1

/-- C9: create returns none — and leaves the state untouched — whenever the
    configuration is absent, or its enable option is absent or false; this is
    a legitimate no-instance outcome, not an error. -/
theorem lldp_create_disabled_none (s : AAState) (dev : String) (mtu : Nat)
    (cfg : Option Smap)
    (h : cfg = none ∨
      ∃ c, cfg = some c ∧ (c.enable = none ∨ c.enable = some false)) :
    lldp_create s dev mtu cfg = (s, none) := by
  rcases h with rfl | ⟨c, rfl, hc⟩
  · rfl
  · have he : smap_get_bool c false = false := by
      cases hc with
      | inl h1 => unfold smap_get_bool; rw [h1]; rfl
      | inr h1 => unfold smap_get_bool; rw [h1]; rfl
    unfold lldp_create
    dsimp only
    rw [he]
    rfl

/-- Witness for C9: absent configuration on the initial state. -/
theorem lldp_create_disabled_none_witness :
    lldp_create initialAAState "eth0" 1500 none = (initialAAState, none) :=
  lldp_create_disabled_none initialAAState "eth0" 1500 none (Or.inl rfl)

-- Characterization of the status-refresh pass for a single peer-reported
-- TLV.

theorem aa_refresh_single_none (l : Lldp) (t : LldpdAaIsidVlanMapsTlv)
    (hn : mapping_find_by_isid l (t.isid : Int) = none) :
    aa_print_isid_status_port_isid l (LldpdPort.mk [t]) = l := by
  show aa_print_isid_status_maps l [t] = l
  rw [aa_print_isid_status_maps]
  rw [hn]
  rfl

theorem aa_refresh_single_some (l : Lldp) (t : LldpdAaIsidVlanMapsTlv)
    (m : AaMappingInternal)
    (hf : mapping_find_by_isid l (t.isid : Int) = some m) :
    aa_print_isid_status_port_isid l (LldpdPort.mk [t]) =
      { l with
        mappings_by_isid := l.mappings_by_isid.map (fun x =>
          if x.isid == (t.isid : Int) then { x with status := t.status }
          else x),
        mappings_by_aux := l.mappings_by_aux.map (fun x =>
          if x.isid == (t.isid : Int) then { x with status := t.status }
          else x) } := by
  show aa_print_isid_status_maps l [t] = _
  rw [aa_print_isid_status_maps]
  rw [hf]
  rfl

-- find? commutes with the status overwrite of the matching entities.

theorem find_map_set_status (i : Int) (st : Nat) :
    ∀ (L : List AaMappingInternal) (m : AaMappingInternal),
      L.find? (fun x => x.isid == i) = some m →
      (L.map (fun x =>
          if x.isid == i then { x with status := st } else x)).find?
        (fun x => x.isid == i) = some { m with status := st } := by
  intro L
  induction L with
  | nil => intro m hf; simp [List.find?] at hf
  | cons a rest ih =>
    intro m hf
    by_cases hp : (a.isid == i) = true
    · simp only [List.find?_cons, hp] at hf
      cases hf
      rw [List.map_cons, if_pos hp]
      exact List.find?_cons_of_pos _ hp
    · have hp2 : (a.isid == i) = false := by
        simpa using hp
      simp only [List.find?_cons, hp2] at hf
      rw [List.map_cons, if_neg hp]
      have hgoal := ih m hf
      simp only [List.find?_cons, hp2]
      exact hgoal

-- Every entity of the by-isid index yields one show-isid row.

theorem aa_show_isid_rows_mem (l : Lldp) (x : AaMappingInternal)
    (hx : x ∈ l.mappings_by_isid) :
    (x.isid, x.vlan, "Switch", aa_status_to_str (x.status % 256)) ∈
      aa_show_isid_rows l :=
  List.mem_map_of_mem _ hx

theorem aa_status_to_str_unrecognized (st : Nat) (h : st ∉ aaStatusValues) :
    aa_status_to_str st = "Undefined" := by
  simp only [aaStatusValues, List.mem_cons, List.not_mem_nil, or_false,
    not_or] at h
  obtain ⟨h1, h2, h3, h4, h5, h6, h7⟩ := h
  simp [aa_status_to_str, h1, h2, h3, h4, h5, h6, h7]

/-- C5 (counterexample): the peer-reported numeric status 258 is not one of
    the recognized codes, yet after the refresh a show-isid row lists the
    I-SID as Active, not Undefined: the stored status is narrowed to the
    uint8_t parameter of aa_status_to_str, and 258 mod 256 = 2 = Active. -/
theorem aa_status_propagation_counterexample :
    (258 % 256 = AA_STATUS_ACTIVE) ∧
    (258 ∉ aaStatusValues) ∧
    aa_show_isid_rows
      (aa_print_isid_status_port_isid
        (Lldp.mk "p0" [AaMappingInternal.mk 7 10 0 255]
          [AaMappingInternal.mk 7 10 0 255] [] [] [])
        (LldpdPort.mk [LldpdAaIsidVlanMapsTlv.mk 7 10 258])) =
      [((7 : Int), (10 : Int), "Switch", "Active")] := by
  decide

/-- C5 (amended): after the refresh pass decodes a peer report with a mapping
    TLV, a local entity with the reported I-SID (when one exists) has its
    status overwritten with the peer-reported value, and a subsequent
    show-isid row shows Active for status Active and Undefined exactly when
    the stored status reduced modulo 256 — the display path narrows it to the
    uint8_t parameter of aa_status_to_str — is none of the recognized codes;
    when no local entity exists for the reported I-SID the report is ignored
    and no entity is created (the instance is unchanged). -/
theorem aa_status_propagation (l : Lldp) (t : LldpdAaIsidVlanMapsTlv) :
    (mapping_find_by_isid l (t.isid : Int) = none →
      aa_print_isid_status_port_isid l (LldpdPort.mk [t]) = l) ∧
    (∀ m, mapping_find_by_isid l (t.isid : Int) = some m →
      mapping_find_by_isid
          (aa_print_isid_status_port_isid l (LldpdPort.mk [t]))
          (t.isid : Int) =
        some { m with status := t.status } ∧
      (t.status % 256 = AA_STATUS_ACTIVE →
        (m.isid, m.vlan, "Switch", "Active") ∈
          aa_show_isid_rows
            (aa_print_isid_status_port_isid l (LldpdPort.mk [t]))) ∧
      (t.status % 256 ∉ aaStatusValues →
        (m.isid, m.vlan, "Switch", "Undefined") ∈
          aa_show_isid_rows
            (aa_print_isid_status_port_isid l (LldpdPort.mk [t])))) := by
  refine ⟨aa_refresh_single_none l t, ?_⟩
  intro m hf
  rw [aa_refresh_single_some l t m hf]
  have hfind : mapping_find_by_isid
      { l with
        mappings_by_isid := l.mappings_by_isid.map (fun x =>
          if x.isid == (t.isid : Int) then { x with status := t.status }
          else x),
        mappings_by_aux := l.mappings_by_aux.map (fun x =>
          if x.isid == (t.isid : Int) then { x with status := t.status }
          else x) } (t.isid : Int) = some { m with status := t.status } :=
    find_map_set_status (t.isid : Int) t.status l.mappings_by_isid m hf
  have hmem : ({ m with status := t.status } : AaMappingInternal) ∈
      (l.mappings_by_isid.map (fun x =>
        if x.isid == (t.isid : Int) then { x with status := t.status }
        else x)) := by
    have := List.mem_of_find?_eq_some hfind
    exact this
  refine ⟨hfind, ?_, ?_⟩
  · intro hA
    have hrow := aa_show_isid_rows_mem
      { l with
        mappings_by_isid := l.mappings_by_isid.map (fun x =>
          if x.isid == (t.isid : Int) then { x with status := t.status }
          else x),
        mappings_by_aux := l.mappings_by_aux.map (fun x =>
          if x.isid == (t.isid : Int) then { x with status := t.status }
          else x) } ({ m with status := t.status }) hmem
    have hs : ({ m with status := t.status } :
        AaMappingInternal).status % 256 = AA_STATUS_ACTIVE := hA
    rw [hs] at hrow
    rw [show aa_status_to_str AA_STATUS_ACTIVE = "Active" from rfl] at hrow
    exact hrow
  · intro hU
    have hrow := aa_show_isid_rows_mem
      { l with
        mappings_by_isid := l.mappings_by_isid.map (fun x =>
          if x.isid == (t.isid : Int) then { x with status := t.status }
          else x),
        mappings_by_aux := l.mappings_by_aux.map (fun x =>
          if x.isid == (t.isid : Int) then { x with status := t.status }
          else x) } ({ m with status := t.status }) hmem
    have hs : ({ m with status := t.status } :
        AaMappingInternal).status % 256 ∉ aaStatusValues := hU
    rw [aa_status_to_str_unrecognized _ hs] at hrow
    exact hrow

/-- The concrete instance used by the C5 witness: one local entity for
    I-SID 7, initially Pending. -/
def c5Inst : Lldp :=
  { name := "p5", mappings_by_isid := [AaMappingInternal.mk 7 10 0 255],
    mappings_by_aux := [AaMappingInternal.mk 7 10 0 255],
    active_mapping_queue := [], hardware := [], g_chassis := [] }

/-- The concrete peer-reported TLV used by the C5 witness: I-SID 7 reported
    Active. -/
def c5Tlv : LldpdAaIsidVlanMapsTlv :=
  { isid := 7, vlan := 10, status := 2 }

/-- Witness for the amended C5: peer reports Active for the known I-SID 7. -/
theorem aa_status_propagation_witness :
    mapping_find_by_isid
        (aa_print_isid_status_port_isid c5Inst (LldpdPort.mk [c5Tlv]))
        ((7 : Nat) : Int) =
      some (AaMappingInternal.mk 7 10 0 2) ∧
    ((7 : Int), (10 : Int), "Switch", "Active") ∈
      aa_show_isid_rows
        (aa_print_isid_status_port_isid c5Inst (LldpdPort.mk [c5Tlv])) :=
  ⟨((aa_status_propagation c5Inst c5Tlv).2
      (AaMappingInternal.mk 7 10 0 255) (by decide)).1,
   (((aa_status_propagation c5Inst c5Tlv).2
      (AaMappingInternal.mk 7 10 0 255) (by decide)).2.1 (by decide))⟩

-- The show-isid report is a function of the registry only.

theorem aa_unixctl_show_isid_loop_snd :
    ∀ regs : List Lldp,
      (aa_unixctl_show_isid_loop regs).2 =
        regs.map (fun l => (l.name, (aa_print_isid_status l).2)) := by
  intro regs
  induction regs with
  | nil => rfl
  | cons l rest ih =>
    rw [aa_unixctl_show_isid_loop]
    rw [List.map_cons, ← ih]

-- Dummy instances start with empty indices and queue and are never touched
-- by any public operation.

theorem dummies_empty_stepAA (s : AAState) (op : AAOp)
    (h : ∀ l ∈ s.dummies, l.mappings_by_isid = [] ∧
      l.mappings_by_aux = [] ∧ l.active_mapping_queue = []) :
    ∀ l ∈ (stepAA s op).dummies, l.mappings_by_isid = [] ∧
      l.mappings_by_aux = [] ∧ l.active_mapping_queue = [] := by
  cases op with
  | create dev mtu cfg =>
    intro l hl
    have hl2 : l ∈ (lldp_create s dev mtu cfg).1.dummies := hl
    rw [lldp_create_fst_dummies] at hl2
    exact h l hl2
  | createDummy =>
    intro l hl
    have hl2 : l ∈ s.dummies ++ [lldp_create_dummy] := hl
    rcases List.mem_append.mp hl2 with hm | hm
    · exact h l hm
    · cases List.mem_singleton.mp hm
      exact ⟨rfl, rfl, rfl⟩
  | register aux isid vlan => exact h
  | unregister aux => exact h
  | drain => exact h
  | configure stg => exact h

theorem dummies_empty_runOps :
    ∀ (ops : List AAOp) (s : AAState),
      (∀ l ∈ s.dummies, l.mappings_by_isid = [] ∧
        l.mappings_by_aux = [] ∧ l.active_mapping_queue = []) →
      ∀ l ∈ (runOps s ops).dummies, l.mappings_by_isid = [] ∧
        l.mappings_by_aux = [] ∧ l.active_mapping_queue = [] := by
  intro ops
  induction ops with
  | nil => intro s h; exact h
  | cons op rest ih =>
    intro s h
    exact ih (stepAA s op) (dummies_empty_stepAA s op h)

/-- C10: the instance returned by lldp_create_dummy is never inserted into
    the instance registry and its indices and queue start empty, with no
    seeding from the Global Mapping Table (lldp_create_dummy is a constant);
    consequently every registry-iterating operation — register, unregister,
    chassis configuration, queue drain, pending count, show-isid — leaves
    every dummy instance untouched (still empty after any call sequence) and
    the reports only ever name registry instances. -/
theorem lldp_create_dummy_isolated (ops : List AAOp) (s : AAState) (aux : Nat)
    (isid vlan : Int) (stg : AaSettings) (l : Lldp)
    (hl : l ∈ (runOps initialAAState ops).dummies) :
    lldp_create_dummy.mappings_by_isid = [] ∧
    lldp_create_dummy.mappings_by_aux = [] ∧
    lldp_create_dummy.active_mapping_queue = [] ∧
    l.mappings_by_isid = [] ∧
    l.mappings_by_aux = [] ∧
    l.active_mapping_queue = [] ∧
    (aa_mapping_register s aux isid vlan).1.dummies = s.dummies ∧
    (aa_mapping_unregister s aux).1.dummies = s.dummies ∧
    (aa_configure s stg).1.dummies = s.dummies ∧
    (aa_get_vlan_queued s []).1.dummies = s.dummies ∧
    (aa_unixctl_show_isid s).1.dummies = s.dummies ∧
    aa_get_vlan_queue_size s =
      aa_get_vlan_queue_size (AAState.mk s.all_lldps s.all_mappings []) ∧
    (aa_unixctl_show_isid s).2.length = s.all_lldps.length ∧
    (∀ e ∈ (aa_unixctl_show_isid s).2, ∃ x ∈ s.all_lldps, e.1 = x.name) := by
  have hempty := dummies_empty_runOps ops initialAAState
    (fun l2 hl2 => absurd hl2 (List.not_mem_nil l2)) l hl
  refine ⟨rfl, rfl, rfl, hempty.1, hempty.2.1, hempty.2.2, rfl, rfl, rfl, rfl,
    rfl, rfl, ?_, ?_⟩
  · show (aa_unixctl_show_isid_loop s.all_lldps).2.length = _
    rw [aa_unixctl_show_isid_loop_snd, List.length_map]
  · intro e he
    have he2 : e ∈ (aa_unixctl_show_isid_loop s.all_lldps).2 := he
    rw [aa_unixctl_show_isid_loop_snd] at he2
    obtain ⟨x, hx, rfl⟩ := List.mem_map.mp he2
    exact ⟨x, hx, rfl⟩

/-- Witness for C10 after one create_dummy call, at a concrete state and
    concrete operation arguments. -/
theorem lldp_create_dummy_isolated_witness :
    lldp_create_dummy.mappings_by_isid = [] ∧
    lldp_create_dummy.active_mapping_queue = [] ∧
    (aa_mapping_register initialAAState 0 1 2).1.dummies =
      initialAAState.dummies :=
  ⟨(lldp_create_dummy_isolated [AAOp.createDummy] initialAAState 0 1 2
      (AaSettings.mk "n" "d") lldp_create_dummy (by decide)).1,
   (lldp_create_dummy_isolated [AAOp.createDummy] initialAAState 0 1 2
      (AaSettings.mk "n" "d") lldp_create_dummy (by decide)).2.2.1,
   (lldp_create_dummy_isolated [AAOp.createDummy] initialAAState 0 1 2
      (AaSettings.mk "n" "d") lldp_create_dummy (by decide)).2.2.2.2.2.2.1⟩

end OvsLldp
